import Mathlib

/-!
Shallow embedding of the `@oxog/environment-detector` detection-and-caching
engine, together with theorems checking the specification's claims against
the code.  Definitions mirror the TypeScript sources: `src/core/cache.ts`,
`src/core/detector.ts`, `src/detectors/{os,container,ci}.ts`,
`src/utils/process.ts`, `src/plugins/manager.ts`, `src/index.ts`.
-/

namespace EnvDetect

/-! ### JavaScript string helpers

`strIncludes s pat` models `s.includes(pat)` (substring containment);
empty-string falsiness of JS is modelled explicitly at each use site. -/

def isPrefixL : List Char → List Char → Bool
  | [], _ => true
  | _ :: _, [] => false
  | a :: as, b :: bs => a == b && isPrefixL as bs

def isInfixL (pat : List Char) : List Char → Bool
  | [] => isPrefixL pat []
  | c :: rest => isPrefixL pat (c :: rest) || isInfixL pat rest

def strIncludes (s pat : String) : Bool :=
  isInfixL pat.toList s.toList

/-! ### Cache (`src/core/cache.ts`)

The JS `Map` backing store is modelled as an association list with unique
keys maintained by replace-on-set; `Date.now()` becomes an explicit `now`
argument.  `get`/`has` return the possibly-mutated state because an expired
entry is deleted on read. -/

structure CacheEntry (α : Type) where
  value : α
  timestamp : Nat
  timeout : Nat
  deriving Repr, DecidableEq

structure CacheState (α : Type) where
  store : List (String × CacheEntry α)
  enabled : Bool
  deriving Repr, DecidableEq

def storeLookup {β : Type} : List (String × β) → String → Option β
  | [], _ => none
  | (k, v) :: rest, key => if k = key then some v else storeLookup rest key

def storeSet {β : Type} : List (String × β) → String → β → List (String × β)
  | [], key, v => [(key, v)]
  | (k, w) :: rest, key, v =>
    if k = key then (key, v) :: rest else (k, w) :: storeSet rest key v

def storeDelete {β : Type} : List (String × β) → String → List (String × β)
  | [], _ => []
  | (k, w) :: rest, key => if k = key then rest else (k, w) :: storeDelete rest key

def cacheGet {α : Type} (st : CacheState α) (key : String) (now : Nat) :
    Option α × CacheState α :=
  if st.enabled = false then (none, st) else
  match storeLookup st.store key with
  | none => (none, st)
  | some entry =>
    if entry.timeout < now - entry.timestamp then
      (none, { st with store := storeDelete st.store key })
    else
      (some entry.value, st)

def cacheSet {α : Type} (st : CacheState α) (key : String) (v : α)
    (timeout : Nat) (now : Nat) : CacheState α :=
  if st.enabled = false then st
  else { st with store := storeSet st.store key ⟨v, now, timeout⟩ }

def cacheHas {α : Type} (st : CacheState α) (key : String) (now : Nat) :
    Bool × CacheState α :=
  if st.enabled = false then (false, st) else
  match storeLookup st.store key with
  | none => (false, st)
  | some entry =>
    if entry.timeout < now - entry.timestamp then
      (false, { st with store := storeDelete st.store key })
    else
      (true, st)

def cacheDelete {α : Type} (st : CacheState α) (key : String) : CacheState α :=
  { st with store := storeDelete st.store key }

def cacheClear {α : Type} (st : CacheState α) : CacheState α :=
  { st with store := [] }

def cacheEnable {α : Type} (st : CacheState α) : CacheState α :=
  { st with enabled := true }

def cacheDisable {α : Type} (_st : CacheState α) : CacheState α :=
  { store := [], enabled := false }

def cacheIsEnabled {α : Type} (st : CacheState α) : Bool :=
  st.enabled

def cacheSize {α : Type} (st : CacheState α) : Nat :=
  st.store.length

theorem storeLookup_storeSet_self {β : Type} (l : List (String × β)) (k : String) (v : β) :
    storeLookup (storeSet l k v) k = some v := by
  induction l with
  | nil => simp [storeSet, storeLookup]
  | cons hd tl ih =>
    obtain ⟨k', v'⟩ := hd
    by_cases h : k' = k
    · simp [storeSet, storeLookup, h]
    · simp [storeSet, storeLookup, h, ih]

theorem storeDelete_length_of_lookup {β : Type} (l : List (String × β)) (k : String)
    (v : β) (h : storeLookup l k = some v) :
    (storeDelete l k).length + 1 = l.length := by
  induction l with
  | nil => simp [storeLookup] at h
  | cons hd tl ih =>
    obtain ⟨k', v'⟩ := hd
    by_cases hk : k' = k
    · simp [storeDelete, hk]
    · simp [storeLookup, hk] at h
      simp [storeDelete, hk, ih h]

end EnvDetect

namespace EnvDetect

/-- C4: with the cache enabled, immediately after `set(k, v, ttl)` at time
`t0`, `get(k)` at `t0` returns `v`; once the elapsed time `t1 - t0` exceeds
`ttl`, the next `get(k)` (or `has(k)`) reports absent, deletes the entry,
and `size()` decreases by one after that post-expiry read. -/
theorem cache_roundtrip_and_expiry {α : Type} (st : CacheState α) (k : String) (v : α)
    (ttl t0 t1 : Nat) (hen : st.enabled = true) (hexp : ttl < t1 - t0) :
    (cacheGet (cacheSet st k v ttl t0) k t0).1 = some v ∧
    (cacheGet (cacheSet st k v ttl t0) k t1).1 = none ∧
    (cacheHas (cacheSet st k v ttl t0) k t1).1 = false ∧
    cacheSize (cacheGet (cacheSet st k v ttl t0) k t1).2 + 1
      = cacheSize (cacheSet st k v ttl t0) := by
  have hset : cacheSet st k v ttl t0
      = { st with store := storeSet st.store k ⟨v, t0, ttl⟩ } := by
    simp [cacheSet, hen]
  have hlook : storeLookup (storeSet st.store k ⟨v, t0, ttl⟩) k
      = some ⟨v, t0, ttl⟩ := storeLookup_storeSet_self _ _ _
  refine ⟨?_, ?_, ?_, ?_⟩
  · simp [hset, cacheGet, hen, hlook]
  · simp [hset, cacheGet, hen, hlook, hexp]
  · simp [hset, cacheHas, hen, hlook, hexp]
  · simp only [hset, cacheGet, hen]
    simp only [Bool.true_eq_false, if_false, hlook, hexp, if_true]
    simpa [cacheSize] using
      storeDelete_length_of_lookup (storeSet st.store k ⟨v, t0, ttl⟩) k _ hlook

/-- Witness for C4 at a concrete instance: empty enabled cache, key `"k"`,
value `1`, `ttl = 5`, set at time `0`, read back at `0` and again at `6`. -/
theorem cache_roundtrip_and_expiry_witness :
    (cacheGet (cacheSet (⟨[], true⟩ : CacheState Nat) "k" 1 5 0) "k" 0).1 = some 1 ∧
    (cacheGet (cacheSet (⟨[], true⟩ : CacheState Nat) "k" 1 5 0) "k" 6).1 = none ∧
    (cacheHas (cacheSet (⟨[], true⟩ : CacheState Nat) "k" 1 5 0) "k" 6).1 = false ∧
    cacheSize (cacheGet (cacheSet (⟨[], true⟩ : CacheState Nat) "k" 1 5 0) "k" 6).2 + 1
      = cacheSize (cacheSet (⟨[], true⟩ : CacheState Nat) "k" 1 5 0) :=
  cache_roundtrip_and_expiry ⟨[], true⟩ "k" 1 5 0 6 rfl (by decide)

end EnvDetect

namespace EnvDetect

/-! ### Environment model and `src/utils/process.ts` / `src/utils/file.ts`

The process environment, filesystem, and `os` module answers observed by
the detectors, frozen for one detection run.  `vars` is `process.env`,
`filePresent` is a successful `fs.accessSync`, `fileContent` is
`fs.readFileSync` (`none` = throw, i.e. `readFile` returning `null`),
`dirPresent` is `fs.statSync(..).isDirectory()`. -/

structure Env where
  vars : String → Option String
  filePresent : String → Bool
  fileContent : String → Option String
  dirPresent : String → Bool
  platform : String
  hostname : String

def getEnv (e : Env) (key : String) : Option String :=
  e.vars key

def hasEnv (e : Env) (key : String) : Bool :=
  (e.vars key).isSome

/-- `String.prototype.toLowerCase()` for the ASCII values the detectors
compare against, as a plain character map (kernel-reducible, unlike
`String.toLower`). -/
def strToLower (s : String) : String :=
  String.mk (s.data.map Char.toLower)

def getEnvBoolean (e : Env) (key : String) : Bool :=
  match getEnv e key with
  | none => false
  | some v => if v = "" then false else (strToLower v = "true" || v = "1")

def fileExists (e : Env) (path : String) : Bool :=
  e.filePresent path

def readFile (e : Env) (path : String) : Option String :=
  e.fileContent path

def isDirectory (e : Env) (path : String) : Bool :=
  e.dirPresent path

/-- JS truthiness of a `string | null | undefined` value: `null`, `undefined`
and `""` are falsy. -/
def jsTruthyStr : Option String → Bool
  | none => false
  | some s => s != ""

/-- `content && content.includes(pat)` for a `string | null` content. -/
def jsStrHas : Option String → String → Bool
  | none, _ => false
  | some s, pat => if s = "" then false else strIncludes s pat

/-- `content && content.toLowerCase().includes(pat)` for `string | null`. -/
def jsStrHasCI : Option String → String → Bool
  | none, _ => false
  | some s, pat => if s = "" then false else strIncludes (strToLower s) pat

/-! ### ContainerDetector (`src/detectors/container.ts`) -/

inductive ContainerType where
  | docker
  | wsl
  | kubernetes
  | unknown
  deriving Repr, DecidableEq

structure ContainerInfo where
  isContainer : Bool
  isDocker : Bool
  isWSL : Bool
  isKubernetes : Bool
  containerType : Option ContainerType
  wslVersion : Option Nat
  wslDistro : Option String
  deriving Repr, DecidableEq

def detectDocker (e : Env) : Bool :=
  if fileExists e "/.dockerenv" || fileExists e "/.dockerinit" then true
  else if jsStrHas (readFile e "/proc/self/cgroup") "docker"
      || jsStrHas (readFile e "/proc/self/cgroup") "containerd" then true
  else if jsStrHas (readFile e "/proc/1/cgroup") "docker"
      || jsStrHas (readFile e "/proc/1/cgroup") "containerd" then true
  else if jsStrHas (readFile e "/proc/self/mountinfo") "docker" then true
  else false

/-- Maximal leading digit run of a character list, with the remainder:
the backtracking-free behaviour of a greedy `\d+` in the regex
`(\d+)\.(\d+)\.(\d+)`. -/
def takeDigits : List Char → List Char × List Char
  | [] => ([], [])
  | c :: rest =>
    if c.isDigit then
      let p := takeDigits rest
      (c :: p.1, p.2)
    else ([], c :: rest)

def digitsToNat (ds : List Char) : Nat :=
  ds.foldl (fun acc c => acc * 10 + (c.toNat - 48)) 0

/-- Does `(\d+)\.(\d+)\.(\d+)` match at the start of `l`?  If so, return
`parseInt` of the first capture group. -/
def matchTriadAt (l : List Char) : Option Nat :=
  match takeDigits l with
  | ([], _) => none
  | (d1, r1) =>
    match r1 with
    | '.' :: r2 =>
      match takeDigits r2 with
      | ([], _) => none
      | (_, r3) =>
        match r3 with
        | '.' :: r4 =>
          match takeDigits r4 with
          | ([], _) => none
          | (_, _) => some (digitsToNat d1)
        | _ => none
    | _ => none

/-- `procVersion.match(/(\d+)\.(\d+)\.(\d+)/)`: leftmost match, first
capture group as a number. -/
def findTriadMajor : List Char → Option Nat
  | [] => none
  | c :: rest =>
    match matchTriadAt (c :: rest) with
    | some n => some n
    | none => findTriadMajor rest

/-- `ContainerDetector.getWSLVersion`, as a function of the content of
`/proc/version` (`none` = unreadable, as returned by `readFile`). -/
def getWSLVersionOfProc (pv : Option String) : Option Nat :=
  match pv with
  | none => none
  | some s =>
    if s = "" then none
    else if strIncludes s "WSL2" || strIncludes s "microsoft-standard-WSL2" then some 2
    else if strIncludes s "Microsoft" || strIncludes s "WSL" then
      match findTriadMajor s.toList with
      | some major => if 5 ≤ major then some 2 else some 1
      | none => some 1
    else none

def getWSLVersion (e : Env) : Option Nat :=
  getWSLVersionOfProc (readFile e "/proc/version")

/-- One `NAME=...` line of `/etc/os-release`, per the regex
`/^NAME="?(.+?)"?$/m` (optional surrounding double quotes stripped). -/
def parseNameLine (line : String) : Option String :=
  if line.startsWith "NAME=" then
    let v := line.drop 5
    let v1 := if v.startsWith "\"" then v.drop 1 else v
    let v2 := if v1.endsWith "\"" then v1.dropRight 1 else v1
    if v2 = "" then none else some v2
  else none

def firstNameMatch : List String → Option String
  | [] => none
  | l :: rest =>
    match parseNameLine l with
    | some v => some v
    | none => firstNameMatch rest

def getWSLDistro (e : Env) : Option String :=
  let envDistro := getEnv e "WSL_DISTRO_NAME"
  if jsTruthyStr envDistro then envDistro
  else
    match readFile e "/etc/os-release" with
    | none => none
    | some s => if s = "" then none else firstNameMatch (s.splitOn "\n")

structure WSLResult where
  isWSL : Bool
  version : Option Nat
  distro : Option String
  deriving Repr, DecidableEq

def detectWSL (e : Env) : WSLResult :=
  if e.platform = "win32" then ⟨false, none, none⟩
  else
    let wslDistro := getEnv e "WSL_DISTRO_NAME"
    if jsTruthyStr wslDistro then
      ⟨true, getWSLVersion e, wslDistro⟩
    else if jsStrHasCI (readFile e "/proc/version") "microsoft" then
      ⟨true, getWSLVersion e, getWSLDistro e⟩
    else if fileExists e "/proc/sys/fs/binfmt_misc/WSLInterop"
        || isDirectory e "/run/WSL" then
      ⟨true, getWSLVersion e, getWSLDistro e⟩
    else if hasEnv e "WSLENV" || hasEnv e "WSL_INTEROP" then
      ⟨true, getWSLVersion e, getWSLDistro e⟩
    else ⟨false, none, none⟩

def isLowerAlnum (c : Char) : Bool :=
  ('a' ≤ c && c ≤ 'z') || ('0' ≤ c && c ≤ '9')

/-- The hostname regex `^[a-z0-9]+-[a-z0-9]+-[a-z0-9]+(-[a-z0-9]+)*$`:
at least three dash-separated nonempty lowercase-alphanumeric segments. -/
def k8sHostnameMatch (h : String) : Bool :=
  let parts := h.splitOn "-"
  decide (3 ≤ parts.length) && parts.all (fun p => p != "" && p.all isLowerAlnum)

def detectKubernetes (e : Env) : Bool :=
  if isDirectory e "/var/run/secrets/kubernetes.io" then true
  else if hasEnv e "KUBERNETES_SERVICE_HOST" || hasEnv e "KUBERNETES_PORT" then true
  else if (e.hostname != "") && k8sHostnameMatch e.hostname then
    fileExists e "/var/run/secrets/kubernetes.io/serviceaccount/token"
  else false

def performDetectionContainer (e : Env) : ContainerInfo :=
  let isDocker := detectDocker e
  let wslInfo := detectWSL e
  let isKubernetes := detectKubernetes e
  let isContainer := isDocker || wslInfo.isWSL || isKubernetes
  let containerType : Option ContainerType :=
    if isDocker then some ContainerType.docker
    else if wslInfo.isWSL then some ContainerType.wsl
    else if isKubernetes then some ContainerType.kubernetes
    else none
  { isContainer := isContainer
    isDocker := isDocker
    isWSL := wslInfo.isWSL
    isKubernetes := isKubernetes
    containerType := containerType
    wslVersion := wslInfo.version
    wslDistro := wslInfo.distro }

end EnvDetect

namespace EnvDetect

/-- C1: every `ContainerInfo` returned by `ContainerDetector.detect`
satisfies `isContainer = (isDocker || isWSL || isKubernetes)`;
`containerType` is defined iff `isContainer`; and `containerType` is
`docker` whenever `isDocker` is true, by the fixed docker > wsl >
kubernetes precedence of the if/else-if chain. -/
theorem container_invariants (e : Env) :
    (performDetectionContainer e).isContainer
      = ((performDetectionContainer e).isDocker
          || (performDetectionContainer e).isWSL
          || (performDetectionContainer e).isKubernetes) ∧
    ((performDetectionContainer e).containerType.isSome
      ↔ (performDetectionContainer e).isContainer = true) ∧
    ((performDetectionContainer e).isDocker = true
      → (performDetectionContainer e).containerType = some ContainerType.docker) := by
  unfold performDetectionContainer
  cases hD : detectDocker e <;> cases hW : (detectWSL e).isWSL <;>
    cases hK : detectKubernetes e <;> simp [hD, hW, hK]

/-- The spec's precedence scenario: Docker marker file and WSL distro
environment variable are both set. -/
def envDockerAndWSL : Env where
  vars := fun k => if k = "WSL_DISTRO_NAME" then some "Ubuntu" else none
  filePresent := fun p => p = "/.dockerenv"
  fileContent := fun _ => none
  dirPresent := fun _ => false
  platform := "linux"
  hostname := "host"

/-- Witness for C1: with `/.dockerenv` present and `WSL_DISTRO_NAME` set,
`isDocker` holds, so the theorem yields `containerType = docker`, while
`isWSL` remains individually true. -/
theorem container_invariants_witness :
    (performDetectionContainer envDockerAndWSL).containerType
        = some ContainerType.docker ∧
    (performDetectionContainer envDockerAndWSL).isWSL = true :=
  ⟨(container_invariants envDockerAndWSL).2.2 (by decide), by decide⟩

/-! ### C3: correspondence of `isInfixL` with `List.IsInfix`, used to
transport substring containment between patterns. -/

theorem isPrefixL_iff : ∀ (p l : List Char), isPrefixL p l = true ↔ p <+: l
  | [], l => by simp [isPrefixL]
  | a :: as, [] => by simp [isPrefixL]
  | a :: as, b :: bs => by
    show (a == b && isPrefixL as bs) = true ↔ _
    rw [Bool.and_eq_true, beq_iff_eq, isPrefixL_iff as bs, List.cons_prefix_cons]

theorem isInfixL_iff : ∀ (p l : List Char), isInfixL p l = true ↔ p <:+: l
  | p, [] => by
    simp [isInfixL, isPrefixL_iff]
  | p, c :: rest => by
    simp [isInfixL, isPrefixL_iff, isInfixL_iff p rest, List.infix_cons_iff]

theorem strIncludes_trans {s q p : String} (h1 : strIncludes s q = true)
    (h2 : strIncludes q p = true) : strIncludes s p = true := by
  rw [strIncludes, isInfixL_iff] at h1 h2 ⊢
  exact h2.trans h1

/-- C3 counterexample: for `/proc/version` content exactly
`"5.15.90.1-microsoft-standard"` — which contains the claim's first sample
substring — `getWSLVersion` yields `undefined`, not `2`: the marker checks
`includes('Microsoft')` / `includes('WSL')` are case-sensitive and the
content is all lowercase with no `WSL2` token. -/
theorem wsl_version_lowercase_sample_not_two :
    getWSLVersionOfProc (some "5.15.90.1-microsoft-standard") = none ∧
    getWSLVersionOfProc (some "5.15.90.1-microsoft-standard") ≠ some 2 := by
  constructor
  · decide
  · decide

/-- C3 amended: an explicit `WSL2` token yields version 2; with no `WSL2`
token but a case-sensitive `Microsoft` or `WSL` marker, the leftmost
`(\d+).(\d+).(\d+)` kernel triad classifies major ≥ 5 as version 2 and
otherwise version 1; with none of the case-sensitive markers the version is
left undefined; concretely, content containing
`"5.15.90.1-microsoft-standard-WSL2"` yields 2 and content containing
`"4.4.0-19041-Microsoft"` yields 1. -/
theorem wsl_version_inference :
    (∀ s : String, strIncludes s "WSL2" = true →
      getWSLVersionOfProc (some s) = some 2) ∧
    (∀ s : String, ∀ m : Nat, strIncludes s "WSL2" = false →
      (strIncludes s "Microsoft" = true ∨ strIncludes s "WSL" = true) →
      findTriadMajor s.toList = some m →
      getWSLVersionOfProc (some s) = (if 5 ≤ m then some 2 else some 1)) ∧
    (∀ s : String, strIncludes s "Microsoft" = false →
      strIncludes s "WSL" = false →
      getWSLVersionOfProc (some s) = none) ∧
    getWSLVersionOfProc (some "Linux version 5.15.90.1-microsoft-standard-WSL2")
      = some 2 ∧
    getWSLVersionOfProc (some "Linux version 4.4.0-19041-Microsoft") = some 1 := by
  refine ⟨?_, ?_, ?_, by decide, by decide⟩
  · intro s h
    have hs : ¬ s = "" := by
      intro he; subst he; exact absurd h (by decide)
    simp [getWSLVersionOfProc, hs, h]
  · intro s m hW2 hms hm
    have hlong : strIncludes s "microsoft-standard-WSL2" = false := by
      cases hc : strIncludes s "microsoft-standard-WSL2" with
      | false => rfl
      | true =>
        have := strIncludes_trans hc (p := "WSL2") (by decide)
        rw [this] at hW2; cases hW2
    have hs : ¬ s = "" := by
      intro he; subst he
      rcases hms with h | h <;> exact absurd h (by decide)
    have hm' : findTriadMajor s.data = some m := hm
    rcases hms with h | h <;> simp [getWSLVersionOfProc, hs, hW2, hlong, h, hm']
  · intro s hM hW
    have hW2 : strIncludes s "WSL2" = false := by
      cases hc : strIncludes s "WSL2" with
      | false => rfl
      | true =>
        have := strIncludes_trans hc (p := "WSL") (by decide)
        rw [this] at hW; cases hW
    have hlong : strIncludes s "microsoft-standard-WSL2" = false := by
      cases hc : strIncludes s "microsoft-standard-WSL2" with
      | false => rfl
      | true =>
        have := strIncludes_trans hc (p := "WSL2") (by decide)
        rw [this] at hW2; cases hW2
    by_cases hs : s = ""
    · simp [getWSLVersionOfProc, hs]
    · simp [getWSLVersionOfProc, hs, hW2, hlong, hM, hW]

/-- Witness for C3 (amended): the second clause applied at the concrete
content `"4.4.0-19041-Microsoft"`, whose case-sensitive `Microsoft` marker
and kernel major version 4 give WSL version 1. -/
theorem wsl_version_inference_witness :
    getWSLVersionOfProc (some "4.4.0-19041-Microsoft")
      = (if 5 ≤ 4 then some 2 else some 1) :=
  (wsl_version_inference.2.1) "4.4.0-19041-Microsoft" 4 (by decide)
    (Or.inl (by decide)) (by decide)

end EnvDetect

namespace EnvDetect

/-! ### OSDetector (`src/detectors/os.ts`) -/

inductive OSType where
  | windows
  | macos
  | linux
  | unknown
  deriving Repr, DecidableEq

structure OSInfo where
  platform : String
  type : OSType
  version : String
  release : String
  arch : String
  isWindows : Bool
  isMacOS : Bool
  isLinux : Bool
  deriving Repr, DecidableEq

/-- The `os` module answers read inside the `try` block: `platform()`,
`release()`, `arch()`, and `version()` when that API exists (`none` models
an older runtime where `os.version` is undefined, in which case `release`
is used). -/
structure OSRaw where
  platform : String
  release : String
  versionApi : Option String
  arch : String
  deriving Repr, DecidableEq

/-- `OSDetector.performDetection`; the argument is `none` when reading OS
information throws, which takes the `catch` branch. -/
def performDetectionOS : Option OSRaw → OSInfo
  | none =>
    { platform := "linux", type := OSType.unknown, version := "unknown",
      release := "unknown", arch := "unknown",
      isWindows := false, isMacOS := false, isLinux := false }
  | some r =>
    let version := r.versionApi.getD r.release
    if r.platform = "win32" then
      { platform := r.platform, type := OSType.windows, version := version,
        release := r.release, arch := r.arch,
        isWindows := true, isMacOS := false, isLinux := false }
    else if r.platform = "darwin" then
      { platform := r.platform, type := OSType.macos, version := version,
        release := r.release, arch := r.arch,
        isWindows := false, isMacOS := true, isLinux := false }
    else if r.platform = "linux" then
      { platform := r.platform, type := OSType.linux, version := version,
        release := r.release, arch := r.arch,
        isWindows := false, isMacOS := false, isLinux := true }
    else
      { platform := r.platform, type := OSType.unknown, version := version,
        release := r.release, arch := r.arch,
        isWindows := false, isMacOS := false, isLinux := false }

/-- C5: at most one of `isWindows`, `isMacOS`, `isLinux` is true in every
`OSInfo` produced by `OSDetector`; and on failure the fallback record has
all three flags false, `type = unknown`, and `platform` hardcoded to
`"linux"`. -/
theorem os_flags_exclusive_and_fallback :
    (∀ raw : Option OSRaw,
      ((performDetectionOS raw).isWindows && (performDetectionOS raw).isMacOS)
          = false ∧
      ((performDetectionOS raw).isWindows && (performDetectionOS raw).isLinux)
          = false ∧
      ((performDetectionOS raw).isMacOS && (performDetectionOS raw).isLinux)
          = false) ∧
    performDetectionOS none
      = { platform := "linux", type := OSType.unknown, version := "unknown",
          release := "unknown", arch := "unknown",
          isWindows := false, isMacOS := false, isLinux := false } := by
  constructor
  · intro raw
    cases raw with
    | none => simp [performDetectionOS]
    | some r =>
      by_cases h1 : r.platform = "win32" <;>
        by_cases h2 : r.platform = "darwin" <;>
        by_cases h3 : r.platform = "linux" <;>
        simp [performDetectionOS, h1, h2, h3]
  · rfl

end EnvDetect

namespace EnvDetect

/-! ### CIDetector (`src/detectors/ci.ts`) -/

inductive CIProvider where
  | githubActions
  | gitlabCi
  | jenkins
  | circleci
  | travisCi
  | azurePipelines
  | bitbucketPipelines
  | teamcity
  | appveyor
  | codebuild
  | unknown
  deriving Repr, DecidableEq

structure CIInfo where
  isCI : Bool
  name : Option String
  isPR : Option Bool
  provider : Option CIProvider
  deriving Repr, DecidableEq

/-- `Object.values(CI_PROVIDER_ENV_VARS)` in declaration order. -/
def ciProviderEnvVars : List String :=
  ["GITHUB_ACTIONS", "GITLAB_CI", "TRAVIS", "CIRCLECI", "JENKINS_URL",
   "BITBUCKET_BUILD_NUMBER", "TEAMCITY_VERSION", "APPVEYOR",
   "CODEBUILD_BUILD_ID", "TF_BUILD"]

def detectCI (e : Env) : Bool :=
  if getEnvBoolean e "CI" || getEnvBoolean e "CONTINUOUS_INTEGRATION"
      || hasEnv e "BUILD_NUMBER" || hasEnv e "CI_NAME" then true
  else if ciProviderEnvVars.any (fun v => hasEnv e v) then true
  else false

def detectCIProvider (e : Env) : CIProvider :=
  if getEnvBoolean e "GITHUB_ACTIONS" then CIProvider.githubActions
  else if getEnvBoolean e "GITLAB_CI" then CIProvider.gitlabCi
  else if getEnvBoolean e "TRAVIS" then CIProvider.travisCi
  else if getEnvBoolean e "CIRCLECI" then CIProvider.circleci
  else if hasEnv e "JENKINS_URL" then CIProvider.jenkins
  else if getEnvBoolean e "TF_BUILD" then CIProvider.azurePipelines
  else if hasEnv e "BITBUCKET_BUILD_NUMBER" then CIProvider.bitbucketPipelines
  else if hasEnv e "TEAMCITY_VERSION" then CIProvider.teamcity
  else if getEnvBoolean e "APPVEYOR" then CIProvider.appveyor
  else if hasEnv e "CODEBUILD_BUILD_ID" then CIProvider.codebuild
  else CIProvider.unknown

def getCIName (e : Env) : CIProvider → String
  | CIProvider.githubActions => "GitHub Actions"
  | CIProvider.gitlabCi => "GitLab CI"
  | CIProvider.travisCi => "Travis CI"
  | CIProvider.circleci => "CircleCI"
  | CIProvider.jenkins => "Jenkins"
  | CIProvider.azurePipelines => "Azure Pipelines"
  | CIProvider.bitbucketPipelines => "Bitbucket Pipelines"
  | CIProvider.teamcity => "TeamCity"
  | CIProvider.appveyor => "AppVeyor"
  | CIProvider.codebuild => "AWS CodeBuild"
  | CIProvider.unknown =>
    match getEnv e "CI_NAME" with
    | some s => if s = "" then "Unknown CI" else s
    | none => "Unknown CI"

def detectPullRequest (e : Env) : CIProvider → Bool
  | CIProvider.githubActions => getEnv e "GITHUB_EVENT_NAME" == some "pull_request"
  | CIProvider.gitlabCi =>
    hasEnv e "CI_MERGE_REQUEST_ID" || hasEnv e "CI_EXTERNAL_PULL_REQUEST_IID"
  | CIProvider.travisCi => getEnv e "TRAVIS_PULL_REQUEST" != some "false"
  | CIProvider.circleci =>
    hasEnv e "CIRCLE_PULL_REQUEST" || hasEnv e "CIRCLE_PR_NUMBER"
  | CIProvider.jenkins => hasEnv e "CHANGE_ID" || hasEnv e "ghprbPullId"
  | CIProvider.azurePipelines => hasEnv e "SYSTEM_PULLREQUEST_PULLREQUESTID"
  | CIProvider.bitbucketPipelines => hasEnv e "BITBUCKET_PR_ID"
  | CIProvider.teamcity => hasEnv e "TEAMCITY_PULL_REQUEST_NUMBER"
  | CIProvider.appveyor => hasEnv e "APPVEYOR_PULL_REQUEST_NUMBER"
  | CIProvider.codebuild =>
    hasEnv e "CODEBUILD_WEBHOOK_HEAD_REF"
      && (match getEnv e "CODEBUILD_WEBHOOK_HEAD_REF" with
          | some s => s.startsWith "refs/pull/"
          | none => false)
  | CIProvider.unknown =>
    hasEnv e "PR_NUMBER" || hasEnv e "PULL_REQUEST_ID" || hasEnv e "PULL_REQUEST"

def performDetectionCI (e : Env) : CIInfo :=
  if detectCI e = false then
    { isCI := false, name := none, isPR := none, provider := none }
  else
    let provider := detectCIProvider e
    { isCI := true, name := some (getCIName e provider),
      isPR := some (detectPullRequest e provider), provider := some provider }

theorem getEnvBoolean_eq_false_of_none (e : Env) (k : String)
    (h : e.vars k = none) : getEnvBoolean e k = false := by
  simp [getEnvBoolean, getEnv, h]

theorem hasEnv_eq_false_of_none (e : Env) (k : String)
    (h : e.vars k = none) : hasEnv e k = false := by
  simp [hasEnv, h]

theorem hasEnv_of_getEnvBoolean (e : Env) (k : String)
    (h : getEnvBoolean e k = true) : hasEnv e k = true := by
  cases hv : e.vars k with
  | none => simp [getEnvBoolean, getEnv, hv] at h
  | some v => simp [hasEnv, hv]

end EnvDetect

namespace EnvDetect

/-- C6: whenever `CIDetector.detect` reports `isCI = false`, the `name`,
`provider` and `isPR` fields of the returned record are genuinely absent. -/
theorem ci_fields_absent_when_not_ci (e : Env)
    (h : (performDetectionCI e).isCI = false) :
    (performDetectionCI e).name = none ∧
    (performDetectionCI e).isPR = none ∧
    (performDetectionCI e).provider = none := by
  by_cases hd : detectCI e = false
  · simp [performDetectionCI, hd]
  · simp [performDetectionCI, hd] at h

/-- An environment with no variables set, no files, no directories. -/
def envEmpty : Env where
  vars := fun _ => none
  filePresent := fun _ => false
  fileContent := fun _ => none
  dirPresent := fun _ => false
  platform := "linux"
  hostname := ""

/-- Witness for C6 at the empty environment, where no CI signal fires. -/
theorem ci_fields_absent_when_not_ci_witness :
    (performDetectionCI envEmpty).name = none ∧
    (performDetectionCI envEmpty).isPR = none ∧
    (performDetectionCI envEmpty).provider = none :=
  ci_fields_absent_when_not_ci envEmpty (by decide)

theorem getEnvBoolean_travis_of_provider (e : Env)
    (h : detectCIProvider e = CIProvider.travisCi) :
    getEnvBoolean e "TRAVIS" = true := by
  unfold detectCIProvider at h
  split_ifs at h
  assumption

theorem detectCI_of_travis (e : Env)
    (h : detectCIProvider e = CIProvider.travisCi) :
    detectCI e = true := by
  have hb := getEnvBoolean_travis_of_provider e h
  have hh := hasEnv_of_getEnvBoolean e "TRAVIS" hb
  have hB : ciProviderEnvVars.any (fun v => hasEnv e v) = true := by
    rw [List.any_eq_true]
    exact ⟨"TRAVIS", by decide, hh⟩
  simp [detectCI, hB]

/-- Concrete environment: `TRAVIS=true` and `TRAVIS_PULL_REQUEST` unset. -/
def envTravisNoPRVar : Env where
  vars := fun k => if k = "TRAVIS" then some "true" else none
  filePresent := fun _ => false
  fileContent := fun _ => none
  dirPresent := fun _ => false
  platform := "linux"
  hostname := ""

/-- C2 counterexample: with `TRAVIS=true` and `TRAVIS_PULL_REQUEST` unset,
the provider is `travis-ci` yet `isPR` is `true` — the code computes
`getEnv('TRAVIS_PULL_REQUEST') !== 'false'` and `undefined !== 'false'`
holds, contradicting the claim that an unset variable yields
`isPR == false`. -/
theorem travis_unset_pr_is_true :
    detectCIProvider envTravisNoPRVar = CIProvider.travisCi ∧
    getEnv envTravisNoPRVar "TRAVIS_PULL_REQUEST" = none ∧
    (performDetectionCI envTravisNoPRVar).isPR = some true := by
  refine ⟨by decide, by decide, by decide⟩

/-- C2 amended: when the provider resolves to `travis-ci`, the returned
`isPR` equals the boolean `TRAVIS_PULL_REQUEST !== "false"`; in particular
`isPR` is false exactly when the variable holds the literal string
`"false"`, and true for any other value as well as when the variable is
unset. -/
theorem travis_pr_iff_not_literal_false (e : Env)
    (h : detectCIProvider e = CIProvider.travisCi) :
    (performDetectionCI e).isPR
      = some (getEnv e "TRAVIS_PULL_REQUEST" != some "false") ∧
    ((performDetectionCI e).isPR = some false
      ↔ getEnv e "TRAVIS_PULL_REQUEST" = some "false") := by
  have hci := detectCI_of_travis e h
  constructor
  · simp [performDetectionCI, hci, h, detectPullRequest]
  · simp [performDetectionCI, hci, h, detectPullRequest]

/-- Concrete environment: `TRAVIS=true`, `TRAVIS_PULL_REQUEST=false`. -/
def envTravisPRFalse : Env where
  vars := fun k =>
    if k = "TRAVIS" then some "true"
    else if k = "TRAVIS_PULL_REQUEST" then some "false"
    else none
  filePresent := fun _ => false
  fileContent := fun _ => none
  dirPresent := fun _ => false
  platform := "linux"
  hostname := ""

/-- Witness for C2 (amended) at `TRAVIS=true`, `TRAVIS_PULL_REQUEST=false`:
the equation yields `isPR = some false`. -/
theorem travis_pr_iff_not_literal_false_witness :
    (performDetectionCI envTravisPRFalse).isPR
      = some (getEnv envTravisPRFalse "TRAVIS_PULL_REQUEST" != some "false") :=
  (travis_pr_iff_not_literal_false envTravisPRFalse (by decide)).1

/-- C9: a provider-specific CI variable that is present but non-truthy
(here `GITHUB_ACTIONS`), with every other provider variable absent, makes
the presence-based CI phase fire (`isCI = true`) while the
truthiness-based provider phase falls through to `unknown`, and the name
falls back to `CI_NAME` or `"Unknown CI"`. -/
theorem ci_present_nontruthy_provider_unknown (e : Env)
    (hga : hasEnv e "GITHUB_ACTIONS" = true)
    (hgb : getEnvBoolean e "GITHUB_ACTIONS" = false)
    (h1 : e.vars "GITLAB_CI" = none)
    (h2 : e.vars "TRAVIS" = none)
    (h3 : e.vars "CIRCLECI" = none)
    (h4 : e.vars "JENKINS_URL" = none)
    (h5 : e.vars "TF_BUILD" = none)
    (h6 : e.vars "BITBUCKET_BUILD_NUMBER" = none)
    (h7 : e.vars "TEAMCITY_VERSION" = none)
    (h8 : e.vars "APPVEYOR" = none)
    (h9 : e.vars "CODEBUILD_BUILD_ID" = none) :
    (performDetectionCI e).isCI = true ∧
    (performDetectionCI e).provider = some CIProvider.unknown ∧
    (performDetectionCI e).name
      = some (match getEnv e "CI_NAME" with
              | some s => if s = "" then "Unknown CI" else s
              | none => "Unknown CI") := by
  have hB : ciProviderEnvVars.any (fun v => hasEnv e v) = true := by
    rw [List.any_eq_true]
    exact ⟨"GITHUB_ACTIONS", by decide, hga⟩
  have hci : detectCI e = true := by
    simp [detectCI, hB]
  have hprov : detectCIProvider e = CIProvider.unknown := by
    unfold detectCIProvider
    simp [hgb,
      getEnvBoolean_eq_false_of_none e "GITLAB_CI" h1,
      getEnvBoolean_eq_false_of_none e "TRAVIS" h2,
      getEnvBoolean_eq_false_of_none e "CIRCLECI" h3,
      hasEnv_eq_false_of_none e "JENKINS_URL" h4,
      getEnvBoolean_eq_false_of_none e "TF_BUILD" h5,
      hasEnv_eq_false_of_none e "BITBUCKET_BUILD_NUMBER" h6,
      hasEnv_eq_false_of_none e "TEAMCITY_VERSION" h7,
      getEnvBoolean_eq_false_of_none e "APPVEYOR" h8,
      hasEnv_eq_false_of_none e "CODEBUILD_BUILD_ID" h9]
  refine ⟨?_, ?_, ?_⟩ <;> simp [performDetectionCI, hci, hprov, getCIName]

/-- Concrete environment: `GITHUB_ACTIONS=false` and nothing else set. -/
def envGhaFalse : Env where
  vars := fun k => if k = "GITHUB_ACTIONS" then some "false" else none
  filePresent := fun _ => false
  fileContent := fun _ => none
  dirPresent := fun _ => false
  platform := "linux"
  hostname := ""

/-- Witness for C9 at `GITHUB_ACTIONS=false`: CI is detected, the provider
is `unknown`, and the name falls back to `"Unknown CI"`. -/
theorem ci_present_nontruthy_provider_unknown_witness :
    (performDetectionCI envGhaFalse).isCI = true ∧
    (performDetectionCI envGhaFalse).provider = some CIProvider.unknown ∧
    (performDetectionCI envGhaFalse).name
      = some (match getEnv envGhaFalse "CI_NAME" with
              | some s => if s = "" then "Unknown CI" else s
              | none => "Unknown CI") :=
  ci_present_nontruthy_provider_unknown envGhaFalse (by decide) (by decide)
    (by decide) (by decide) (by decide) (by decide) (by decide) (by decide)
    (by decide) (by decide) (by decide)

end EnvDetect

namespace EnvDetect

/-! ### PluginManager (`src/plugins/manager.ts`)

A plugin is its name, the names of the detectors it contributes, and
whether its `uninstall` hook throws.  The manager state is the plugin map,
the context's detector registry, and the emitted event trail.  `remove`
returns the mutated state plus the thrown error message, if any. -/

structure PluginM where
  name : String
  detectors : List String
  uninstallThrows : Bool
  deriving Repr, DecidableEq

structure PMState where
  plugins : List (String × PluginM)
  ctxDetectors : List String
  events : List String
  deriving Repr, DecidableEq

/-- `Map.delete` on the context's detector registry. -/
def removeFirstStr : List String → String → List String
  | [], _ => []
  | x :: rest, n => if x = n then rest else x :: removeFirstStr rest n

/-- `PluginManagerImpl.remove`: look the plugin up, unregister all of its
detectors, then run the `uninstall` hook; on a throwing hook, emit
`plugin:error` and re-throw a wrapped error (the plugin-map delete and the
`plugin:removed` emit are skipped). -/
def removePlugin (st : PMState) (pluginName : String) : PMState × Option String :=
  match storeLookup st.plugins pluginName with
  | none => (st, some ("Plugin '" ++ pluginName ++ "' is not installed"))
  | some p =>
    let ctx1 := p.detectors.foldl removeFirstStr st.ctxDetectors
    if p.uninstallThrows then
      ({ plugins := st.plugins, ctxDetectors := ctx1,
         events := st.events ++ ["plugin:error"] },
       some ("Failed to remove plugin '" ++ pluginName ++ "'"))
    else
      ({ plugins := storeDelete st.plugins pluginName, ctxDetectors := ctx1,
         events := st.events ++ ["plugin:removed"] },
       none)

def pluginP : PluginM :=
  { name := "p", detectors := ["d"], uninstallThrows := true }

def pmState0 : PMState :=
  { plugins := [("p", pluginP)], ctxDetectors := ["d"], events := [] }

/-- C7 counterexample: plugin `"p"` contributes detector `"d"` and its
uninstall hook throws.  `remove` does re-throw and keeps the plugin-map
entry, but the detector `"d"` has already been unregistered before the
hook ran — the registration is partially removed, contradicting the claim
that it is left fully intact. -/
theorem plugin_remove_detector_unregistered_on_throw :
    (removePlugin pmState0 "p").2.isSome = true ∧
    (removePlugin pmState0 "p").1.plugins = [("p", pluginP)] ∧
    (removePlugin pmState0 "p").1.ctxDetectors = [] := by
  refine ⟨by decide, by decide, by decide⟩

/-- C7 amended: if a plugin's uninstall hook throws during `remove`, the
manager emits a `plugin:error` event and re-throws a wrapped error, and the
plugin-map entry survives; however the plugin's detectors have already been
unregistered from the context before the hook runs, so the removal is
partial with respect to detectors. -/
theorem plugin_remove_throw_behavior (st : PMState) (n : String) (p : PluginM)
    (hp : storeLookup st.plugins n = some p) (ht : p.uninstallThrows = true) :
    (removePlugin st n).2 = some ("Failed to remove plugin '" ++ n ++ "'") ∧
    (removePlugin st n).1.plugins = st.plugins ∧
    (removePlugin st n).1.events = st.events ++ ["plugin:error"] ∧
    (removePlugin st n).1.ctxDetectors
      = p.detectors.foldl removeFirstStr st.ctxDetectors := by
  simp [removePlugin, hp, ht]

/-- Witness for C7 (amended) at the concrete one-plugin state. -/
theorem plugin_remove_throw_behavior_witness :
    (removePlugin pmState0 "p").2 = some ("Failed to remove plugin '" ++ "p" ++ "'") ∧
    (removePlugin pmState0 "p").1.plugins = pmState0.plugins ∧
    (removePlugin pmState0 "p").1.events = pmState0.events ++ ["plugin:error"] ∧
    (removePlugin pmState0 "p").1.ctxDetectors
      = pluginP.detectors.foldl removeFirstStr pmState0.ctxDetectors :=
  plugin_remove_throw_behavior pmState0 "p" pluginP (by decide) rfl

end EnvDetect

namespace EnvDetect

/-! ### BaseDetector contract (`src/core/detector.ts`) and the facade
(`src/index.ts`)

A detector is its name, its domain detection routine over a frozen world
`β`, and an optional override of `performAsyncDetection` (`none` = the
default, which delegates to `performDetection`).  `detectSync` and
`detectAsync` thread the shared cache state exactly as the template
methods do. -/

structure DOptions where
  cache : Bool
  cacheTimeout : Nat
  async : Bool
  deriving Repr, DecidableEq

def defaultDOptions : DOptions :=
  { cache := true, cacheTimeout := 60000, async := false }

structure DetM (α β : Type) where
  name : String
  performDetection : β → α
  performAsyncOverride : Option (β → α)

def performAsyncDetection {α β : Type} (d : DetM α β) (w : β) : α :=
  match d.performAsyncOverride with
  | some f => f w
  | none => d.performDetection w

def detectSyncD {α β : Type} (d : DetM α β) (o : DOptions) (w : β) (now : Nat)
    (st : CacheState α) : α × CacheState α :=
  let key := "detector:" ++ d.name
  if o.cache then
    match cacheGet st key now with
    | (some v, st1) => (v, st1)
    | (none, st1) =>
      let r := d.performDetection w
      (r, cacheSet st1 key r o.cacheTimeout now)
  else
    (d.performDetection w, st)

def detectAsyncD {α β : Type} (d : DetM α β) (o : DOptions) (w : β) (now : Nat)
    (st : CacheState α) : α × CacheState α :=
  let key := "detector:" ++ d.name
  if o.cache then
    match cacheGet st key now with
    | (some v, st1) => (v, st1)
    | (none, st1) =>
      let r := performAsyncDetection d w
      (r, cacheSet st1 key r o.cacheTimeout now)
  else
    (performAsyncDetection d w, st)

def detectD {α β : Type} (d : DetM α β) (o : DOptions) (w : β) (now : Nat)
    (st : CacheState α) : α × CacheState α :=
  if o.async then detectAsyncD d o w now st else detectSyncD d o w now st

structure FacadeDetectors (α β : Type) where
  osD : DetM α β
  containerD : DetM α β
  ciD : DetM α β
  cloudD : DetM α β
  nodeD : DetM α β
  privilegesD : DetM α β
  modeD : DetM α β

structure EnvironmentInfoG (α : Type) where
  os : α
  container : α
  ci : α
  cloud : α
  node : α
  privileges : α
  mode : α
  deriving Repr, DecidableEq

/-- `EnvironmentDetector.getEnvironmentInfo`: the seven `detect()` calls
run sequentially, threading the shared singleton cache. -/
def getEnvironmentInfo {α β : Type} (f : FacadeDetectors α β) (o : DOptions)
    (w : β) (now : Nat) (st : CacheState α) : EnvironmentInfoG α × CacheState α :=
  let osR := detectD f.osD o w now st
  let containerR := detectD f.containerD o w now osR.2
  let ciR := detectD f.ciD o w now containerR.2
  let cloudR := detectD f.cloudD o w now ciR.2
  let nodeR := detectD f.nodeD o w now cloudR.2
  let privilegesR := detectD f.privilegesD o w now nodeR.2
  let modeR := detectD f.modeD o w now privilegesR.2
  (⟨osR.1, containerR.1, ciR.1, cloudR.1, nodeR.1, privilegesR.1, modeR.1⟩,
   modeR.2)

/-- `EnvironmentDetector.getEnvironmentInfoAsync`: the `Promise.all` array
literal evaluates its seven `Promise.resolve(detect())` elements left to
right, and each `detect()` runs to completion before the next element is
built (no detector suspends internally), so the same seven detections run
in the same order over the same threaded cache. -/
def getEnvironmentInfoAsync {α β : Type} (f : FacadeDetectors α β) (o : DOptions)
    (w : β) (now : Nat) (st : CacheState α) : EnvironmentInfoG α × CacheState α :=
  let osR := detectD f.osD o w now st
  let containerR := detectD f.containerD o w now osR.2
  let ciR := detectD f.ciD o w now containerR.2
  let cloudR := detectD f.cloudD o w now ciR.2
  let nodeR := detectD f.nodeD o w now cloudR.2
  let privilegesR := detectD f.privilegesD o w now nodeR.2
  let modeR := detectD f.modeD o w now privilegesR.2
  (⟨osR.1, containerR.1, ciR.1, cloudR.1, nodeR.1, privilegesR.1, modeR.1⟩,
   modeR.2)

/-- C8: the default `performAsyncDetection` delegates to
`performDetection`; for every detector that does not override it,
`detectAsync` computes exactly what `detectSync` computes (same record and
same cache state); and the facade's async aggregate equals its sync
aggregate under non-async options, the inputs being stable. -/
theorem async_path_equals_sync_path {α β : Type} :
    (∀ (d : DetM α β) (w : β), d.performAsyncOverride = none →
      performAsyncDetection d w = d.performDetection w) ∧
    (∀ (d : DetM α β) (o : DOptions) (w : β) (now : Nat) (st : CacheState α),
      d.performAsyncOverride = none →
      detectAsyncD d o w now st = detectSyncD d o w now st) ∧
    (∀ (f : FacadeDetectors α β) (o : DOptions) (w : β) (now : Nat)
        (st : CacheState α), o.async = false →
      getEnvironmentInfoAsync f o w now st = getEnvironmentInfo f o w now st) := by
  refine ⟨?_, ?_, ?_⟩
  · intro d w h
    simp [performAsyncDetection, h]
  · intro d o w now st h
    simp [detectAsyncD, detectSyncD, performAsyncDetection, h]
  · intro f o w now st _
    rfl

/-- A concrete detector with the default async routine, for witnesses. -/
def detNat : DetM Nat Unit :=
  { name := "os", performDetection := fun _ => 7, performAsyncOverride := none }

def facadeNat : FacadeDetectors Nat Unit :=
  ⟨detNat, detNat, detNat, detNat, detNat, detNat, detNat⟩

/-- Witness for C8 at a concrete detector and facade over an empty enabled
cache. -/
theorem async_path_equals_sync_path_witness :
    detectAsyncD detNat defaultDOptions () 0 ⟨[], true⟩
      = detectSyncD detNat defaultDOptions () 0 ⟨[], true⟩ ∧
    getEnvironmentInfoAsync facadeNat defaultDOptions () 0 ⟨[], true⟩
      = getEnvironmentInfo facadeNat defaultDOptions () 0 ⟨[], true⟩ :=
  ⟨(@async_path_equals_sync_path Nat Unit).2.1 detNat defaultDOptions () 0
      ⟨[], true⟩ rfl,
   (@async_path_equals_sync_path Nat Unit).2.2 facadeNat defaultDOptions () 0
      ⟨[], true⟩ rfl⟩

end EnvDetect

namespace EnvDetect

/-! ### EnvironmentDetector constructor (`src/index.ts`) and the
process-wide cache singleton

`Cache.getInstance()` returns one process-wide instance shared by every
`BaseDetector` and every `EnvironmentDetector`; it is modelled as the
single threaded `CacheState`.  The constructor's only cache effect is
`if (options.cache === false) this.cache.disable()`. -/

structure EDOptions where
  cache : Option Bool
  cacheTimeout : Option Nat
  async : Option Bool
  deriving Repr, DecidableEq

def constructEnvironmentDetector {α : Type} (options : Option EDOptions)
    (st : CacheState α) : CacheState α :=
  match options with
  | none => st
  | some o => if o.cache = some false then cacheDisable st else st

/-- C10: constructing an `EnvironmentDetector` with `cache: false` disables
the process-wide singleton cache: the resulting shared state is disabled
and empty (all entries purged), every subsequent `get` reports absent and
every `set` is a no-op, every detector's `detectSync` recomputes and leaves
the shared state unchanged — for any detector, hence for any other
`EnvironmentDetector` instance reading the same singleton — until
`enableCache()ʼs` underlying `enable()` turns caching back on. -/
theorem constructor_cache_false_disables_global {α β : Type} (o : EDOptions)
    (st : CacheState α) (hc : o.cache = some false) :
    (constructEnvironmentDetector (some o) st).enabled = false ∧
    cacheSize (constructEnvironmentDetector (some o) st) = 0 ∧
    (∀ (k : String) (now : Nat),
      (cacheGet (constructEnvironmentDetector (some o) st) k now).1 = none) ∧
    (∀ (k : String) (v : α) (ttl now : Nat),
      cacheSet (constructEnvironmentDetector (some o) st) k v ttl now
        = constructEnvironmentDetector (some o) st) ∧
    (∀ (d : DetM α β) (oo : DOptions) (w : β) (now : Nat), oo.cache = true →
      detectSyncD d oo w now (constructEnvironmentDetector (some o) st)
        = (d.performDetection w, constructEnvironmentDetector (some o) st)) ∧
    (cacheEnable (constructEnvironmentDetector (some o) st)).enabled = true := by
  have hdis : constructEnvironmentDetector (some o) st = cacheDisable st := by
    simp [constructEnvironmentDetector, hc]
  rw [hdis]
  refine ⟨rfl, rfl, ?_, ?_, ?_, rfl⟩
  · intro k now
    simp [cacheGet, cacheDisable]
  · intro k v ttl now
    simp [cacheSet, cacheDisable]
  · intro d oo w now hoo
    simp [detectSyncD, hoo, cacheGet, cacheSet, cacheDisable]

def edOptsNoCache : EDOptions :=
  { cache := some false, cacheTimeout := none, async := none }

def stWithEntry : CacheState Nat :=
  { store := [("detector:os", ⟨5, 0, 60000⟩)], enabled := true }

/-- Witness for C10: a previously populated, enabled cache is purged and
disabled by construction with `cache: false`, a detector then recomputes
through it, and the state is left unchanged. -/
theorem constructor_cache_false_disables_global_witness :
    (constructEnvironmentDetector (some edOptsNoCache) stWithEntry).enabled = false ∧
    cacheSize (constructEnvironmentDetector (some edOptsNoCache) stWithEntry) = 0 ∧
    (cacheGet (constructEnvironmentDetector (some edOptsNoCache) stWithEntry)
      "detector:os" 0).1 = none ∧
    detectSyncD detNat defaultDOptions () 0
        (constructEnvironmentDetector (some edOptsNoCache) stWithEntry)
      = (7, constructEnvironmentDetector (some edOptsNoCache) stWithEntry) :=
  ⟨(@constructor_cache_false_disables_global Nat Unit edOptsNoCache stWithEntry rfl).1,
   (@constructor_cache_false_disables_global Nat Unit edOptsNoCache stWithEntry rfl).2.1,
   (@constructor_cache_false_disables_global Nat Unit edOptsNoCache stWithEntry rfl).2.2.1
      "detector:os" 0,
   (@constructor_cache_false_disables_global Nat Unit edOptsNoCache stWithEntry rfl).2.2.2.2.1
      detNat defaultDOptions () 0 rfl⟩

end EnvDetect
